import Mathlib

/-!
Shallow embedding of the barbershop user-service (FastAPI + SQLAlchemy) and
proofs about its registration, login, token, and user-CRUD behaviour.

The embedding mirrors the Python sources:
  app/models/user.py      → `UserRec`
  app/schemas/user.py     → `UserCreate`, `UserUpdate`, `Schemas.User`
  app/schemas/auth.py     → `Token`
  app/utils/auth.py       → `SECRET_KEY`, `ACCESS_TOKEN_EXPIRE_MINUTES`,
                            `create_access_token` (JWT modelled as a signed
                            payload; the hash/verify functions of passlib are
                            parameters `hashFn` / `verifyFn`)
  app/crud/user.py        → namespace `Crud`
  app/dependencies.py     → namespace `Dependencies`
  app/routers/user.py     → namespace `Routers`
  app/routers/auth.py     → namespace `Routers`
The database session is explicit state: a `DB` value threaded through the
mutating operations. Wall-clock time is an explicit `now : Nat` (epoch
seconds) passed where the Python code reads the clock.
-/

namespace UserService

/-- Embedding of the `User` model (app/models/user.py): the persisted row.
`created_at` / `updated_at` are epoch seconds; `updated_at` is `none` until
the first mutating update (the column's `onupdate=func.now()`). -/
structure UserRec where
  id : Nat
  email : String
  username : String
  first_name : Option String
  last_name : Option String
  phone_number : Option String
  hashed_password : String
  is_active : Bool
  is_barber : Bool
  created_at : Nat
  updated_at : Option Nat
deriving Repr, DecidableEq

/-- The user table plus the autoincrement counter that assigns ids. -/
structure DB where
  users : List UserRec
  next_id : Nat
deriving Repr, DecidableEq

/-- JWT settings (app/utils/auth.py lines 9-11); the insecure default secret. -/
def SECRET_KEY : String := "secret_key_123"

def ALGORITHM : String := "HS256"

def ACCESS_TOKEN_EXPIRE_MINUTES : Nat := 30

/-- The claim set placed in a token: `sub` (stringified user id) and `exp`
(epoch seconds). `sub` is `Option` because `payload.get("sub")` may be absent. -/
structure TokenPayload where
  sub : Option String
  exp : Nat
deriving Repr, DecidableEq

/-- A signed token: the payload together with the key it was signed with.
Signature verification is modelled as key equality. -/
structure JWT where
  payload : TokenPayload
  key : String
deriving Repr, DecidableEq

inductive JWTError where
  | invalidSignature
  | expiredSignature
deriving Repr, DecidableEq

/-- Model of `jose.jwt.encode`. -/
def jwt_encode (payload : TokenPayload) (key : String) : JWT :=
  { payload := payload, key := key }

/-- Model of `jose.jwt.decode`: rejects a wrong signature, then rejects an
expired `exp` claim; otherwise exposes the payload. -/
def jwt_decode (t : JWT) (key : String) (now : Nat) : Except JWTError TokenPayload :=
  if t.key ≠ key then .error .invalidSignature
  else if t.payload.exp < now then .error .expiredSignature
  else .ok t.payload

/-- Embedding of `create_access_token` (app/utils/auth.py lines 27-38).
`expires_delta` is in seconds (`timedelta(minutes=30)` = 1800 s); the payload
is `exp = now + delta`, `sub = str(subject)`. -/
def create_access_token (now : Nat) (subject : Nat) (expires_delta : Option Nat) : JWT :=
  let expire : Nat :=
    match expires_delta with
    | some d => now + d
    | none => now + ACCESS_TOKEN_EXPIRE_MINUTES * 60
  jwt_encode { sub := some (toString subject), exp := expire } SECRET_KEY

/-- Parameter names accepted by `create_access_token` (app/utils/auth.py
lines 27-29): `subject` and `expires_delta` only. -/
def create_access_token_params : List String := ["subject", "expires_delta"]

/-- Keyword arguments supplied at both call sites in app/routers/auth.py
(lines 41-43 and 65-67): the callers also pass `is_barber`. -/
def login_call_kwargs : List String := ["subject", "is_barber", "expires_delta"]

/-- Python keyword-argument binding: a call succeeds only when every supplied
keyword names a declared parameter; otherwise it raises `TypeError`. -/
def kwargs_accepted (params kwargs : List String) : Bool :=
  kwargs.all (fun k => params.contains k)

/-- An HTTP-level outcome: a raised `HTTPException` (status, detail, headers),
or an uncaught Python exception, which surfaces as a 500 to the caller. -/
inductive ApiError where
  | http (status : Nat) (detail : String) (headers : List (String × String))
  | internal (msg : String)
deriving Repr, DecidableEq

/-- Embedding of schema `UserCreate` (app/schemas/user.py lines 8-19), after
pydantic validation has accepted the payload. -/
structure UserCreate where
  email : String
  username : String
  first_name : Option String := none
  last_name : Option String := none
  phone_number : Option String := none
  is_barber : Bool := false
  password : String
deriving Repr, DecidableEq

/-- Embedding of schema `UserUpdate` (app/schemas/user.py lines 23-31): every
field optional; `none` models a field left unset in the request body
(pydantic `exclude_unset`). -/
structure UserUpdate where
  email : Option String := none
  username : Option String := none
  first_name : Option String := none
  last_name : Option String := none
  phone_number : Option String := none
  password : Option String := none
  is_active : Option Bool := none
  is_barber : Option Bool := none
deriving Repr, DecidableEq

/-- The registration request body before pydantic validation runs. -/
structure RawUserCreate where
  email : String
  username : String
  first_name : Option String := none
  last_name : Option String := none
  phone_number : Option String := none
  is_barber : Bool := false
  password : String
deriving Repr, DecidableEq

inductive ValidationFailure where
  | invalidEmail
  | passwordTooShort
deriving Repr, DecidableEq

/-- Model of the pydantic `EmailStr` format gate (third-party validator used
at app/schemas/user.py line 9): exactly one at-sign separating a nonempty
local part from a dotted, nonempty domain, and no spaces. -/
def emailFormatOk (e : String) : Bool :=
  let cs := e.toList
  let lp := cs.takeWhile (fun c => c != '@')
  match cs.dropWhile (fun c => c != '@') with
  | '@' :: dom =>
    !lp.isEmpty && !dom.isEmpty && dom.contains '.'
      && !(dom.contains '@') && !(cs.contains ' ')
  | _ => false

/-- Pydantic validation of a registration body: `EmailStr` on `email` and
`Field(min_length=6)` on `password` (app/schemas/user.py lines 9 and 19). -/
def validate_user_create (r : RawUserCreate) : Except ValidationFailure UserCreate :=
  if !emailFormatOk r.email then .error .invalidEmail
  else if r.password.length < 6 then .error .passwordTooShort
  else .ok { email := r.email, username := r.username, first_name := r.first_name,
             last_name := r.last_name, phone_number := r.phone_number,
             is_barber := r.is_barber, password := r.password }

namespace Crud

/-- `get_user` (app/crud/user.py lines 10-12): first row with the given id. -/
def get_user (db : DB) (user_id : Nat) : Option UserRec :=
  db.users.find? (fun u => u.id == user_id)

/-- `get_user_by_email` (app/crud/user.py lines 15-17). -/
def get_user_by_email (db : DB) (email : String) : Option UserRec :=
  db.users.find? (fun u => u.email == email)

/-- `get_user_by_username` (app/crud/user.py lines 20-22). -/
def get_user_by_username (db : DB) (username : String) : Option UserRec :=
  db.users.find? (fun u => u.username == username)

/-- `create_user` (app/crud/user.py lines 35-49): builds the row with the
hashed password, column defaults `is_active=True`, `created_at=now()`, and
the store-assigned id, and appends it. -/
def create_user (hashFn : String → String) (now : Nat) (db : DB) (user : UserCreate) :
    UserRec × DB :=
  let db_user : UserRec :=
    { id := db.next_id
      email := user.email
      username := user.username
      first_name := user.first_name
      last_name := user.last_name
      phone_number := user.phone_number
      hashed_password := hashFn user.password
      is_active := true
      is_barber := user.is_barber
      created_at := now
      updated_at := none }
  (db_user, { users := db.users ++ [db_user], next_id := db.next_id + 1 })

/-- The field merge inside `update_user` (app/crud/user.py lines 58-68):
`update_data = user.dict(exclude_unset=True)`; a present nonempty `password`
is popped and rehashed into `hashed_password`; every remaining present key
that names a model attribute is written with `setattr` (a present empty
`password` keeps the key `password`, which is not a model attribute, so it
is skipped). The merge is written here field by field; the setattr loop
touches each field at most once so order is irrelevant. -/
def apply_update_data (hashFn : String → String) (user : UserUpdate) (u : UserRec) : UserRec :=
  { u with
    email := match user.email with | some v => v | none => u.email
    username := match user.username with | some v => v | none => u.username
    first_name := match user.first_name with | some v => some v | none => u.first_name
    last_name := match user.last_name with | some v => some v | none => u.last_name
    phone_number := match user.phone_number with | some v => some v | none => u.phone_number
    is_active := match user.is_active with | some v => v | none => u.is_active
    is_barber := match user.is_barber with | some v => v | none => u.is_barber
    hashed_password :=
      match user.password with
      | some p => if p = "" then u.hashed_password else hashFn p
      | none => u.hashed_password }

/-- True when the setattr loop of `update_user` writes at least one model
attribute, i.e. when the commit issues an UPDATE and the `updated_at`
column's `onupdate=func.now()` fires (app/models/user.py line 20). -/
def UserUpdate.writesRow (user : UserUpdate) : Bool :=
  user.email.isSome || user.username.isSome || user.first_name.isSome ||
  user.last_name.isSome || user.phone_number.isSome || user.is_active.isSome ||
  user.is_barber.isSome ||
  (match user.password with | some p => p != "" | none => false)

/-- Replace the first row with the given id (the fetched ORM object is the
one mutated and committed). -/
def replaceById (users : List UserRec) (user_id : Nat) (u : UserRec) : List UserRec :=
  match users with
  | [] => []
  | v :: rest => if v.id == user_id then u :: rest else v :: replaceById rest user_id u

/-- An exception raised by the persistence layer at commit time; it
propagates out of the crud function and the framework reports it as an
opaque 500 to the caller. -/
inductive DbError where
  | integrityError
deriving Repr, DecidableEq

/-- The row as it is committed by `update_user`: the merged fields, with the
`updated_at` column bumped when an UPDATE is issued. -/
def committed_row (hashFn : String → String) (now : Nat) (user : UserUpdate)
    (db_user : UserRec) : UserRec :=
  let merged := apply_update_data hashFn user db_user
  if UserUpdate.writesRow user then { merged with updated_at := some now } else merged

/-- The unique-constraint check the store performs when `db.commit()` runs:
an email or username column written by the UPDATE whose new value is already
held by a different row violates `unique=True` (app/models/user.py lines
11-12) and makes the commit raise `IntegrityError`. A column not in the
payload is not written and is not re-checked. -/
def unique_violation (db : DB) (user_id : Nat) (user : UserUpdate)
    (committed : UserRec) : Bool :=
  (user.email.isSome
      && db.users.any (fun v => v.id != user_id && v.email == committed.email))
  || (user.username.isSome
      && db.users.any (fun v => v.id != user_id && v.username == committed.username))

/-- `update_user` (app/crud/user.py lines 52-72): `None` when the id is
unknown; otherwise the present fields are merged into the fetched row and
committed. The commit can raise: `update_user` has no application-level
duplicate check, so a payload setting email or username to a value held by
another stored row hits the table's unique constraint and the unhandled
`IntegrityError` propagates (nothing is stored). Otherwise the new row is
both returned and stored. -/
def update_user (hashFn : String → String) (now : Nat) (db : DB) (user_id : Nat)
    (user : UserUpdate) : Except DbError (Option (UserRec × DB)) :=
  match get_user db user_id with
  | none => .ok none
  | some db_user =>
    let committed := committed_row hashFn now user db_user
    if unique_violation db user_id user committed then .error .integrityError
    else .ok (some (committed, { db with users := replaceById db.users user_id committed }))

/-- `delete_user` (app/crud/user.py lines 75-83): `False` when the id is
unknown, otherwise removes the fetched row and reports `True`. -/
def delete_user (db : DB) (user_id : Nat) : Bool × DB :=
  match get_user db user_id with
  | none => (false, db)
  | some _ => (true, { db with users := db.users.eraseP (fun u => u.id == user_id) })

end Crud

namespace Schemas

/-- Embedding of the response schema `User` (app/schemas/user.py lines
35-42): the exposed fields. Neither `password` nor `hashed_password` is a
field of this structure. -/
structure User where
  email : String
  username : String
  first_name : Option String
  last_name : Option String
  phone_number : Option String
  is_barber : Bool
  id : Nat
  is_active : Bool
  created_at : Nat
  updated_at : Option Nat
deriving Repr, DecidableEq

/-- FastAPI's `response_model=UserSchema` serialisation (`from_attributes`):
copies the schema's fields off the ORM row. -/
def User.ofRec (u : UserRec) : User :=
  { email := u.email, username := u.username, first_name := u.first_name,
    last_name := u.last_name, phone_number := u.phone_number,
    is_barber := u.is_barber, id := u.id, is_active := u.is_active,
    created_at := u.created_at, updated_at := u.updated_at }

end Schemas

/-- The token response schema (app/schemas/auth.py lines 5-7). -/
structure Token where
  access_token : JWT
  token_type : String
deriving Repr, DecidableEq

namespace Dependencies

/-- The 401 raised throughout `get_current_user` (app/dependencies.py lines
27-31). -/
def credentials_exception : ApiError :=
  .http 401 "Could not validate credentials" [("WWW-Authenticate", "Bearer")]

/-- `get_current_user` (app/dependencies.py lines 24-52): decode the token
(401 on any `JWTError`), 401 when the `sub` claim is missing, look the
subject up by id (the string subject is compared against the integer id
column under SQLite's numeric affinity, so it matches the row whose id
stringifies to it; 401 when none does), 400 when the user is inactive. -/
def get_current_user (db : DB) (token : JWT) (now : Nat) : Except ApiError UserRec :=
  match jwt_decode token SECRET_KEY now with
  | .error _ => .error credentials_exception
  | .ok payload =>
    match payload.sub with
    | none => .error credentials_exception
    | some user_id =>
      match db.users.find? (fun u => toString u.id == user_id) with
      | none => .error credentials_exception
      | some user =>
        if !user.is_active then .error (.http 400 "Inactive user" [])
        else .ok user

/-- `get_barber_user` (app/dependencies.py lines 56-62). -/
def get_barber_user (current_user : UserRec) : Except ApiError UserRec :=
  if !current_user.is_barber then .error (.http 403 "Not enough permissions" [])
  else .ok current_user

end Dependencies

namespace Routers

/-- `create_user` route (app/routers/user.py lines 18-40): email-uniqueness
check, then username-uniqueness check, each a 400 that leaves the store
untouched; otherwise the crud insert runs. -/
def create_user (hashFn : String → String) (now : Nat) (db : DB) (user : UserCreate) :
    Except ApiError UserRec × DB :=
  match Crud.get_user_by_email db user.email with
  | some _ => (.error (.http 400 "Email already registered" []), db)
  | none =>
    match Crud.get_user_by_username db user.username with
    | some _ => (.error (.http 400 "Username already taken" []), db)
    | none =>
      let r := Crud.create_user hashFn now db user
      (.ok r.1, r.2)

/-- `update_user` route (app/routers/user.py lines 84-112): existence first
(404), then the permission rule (403 unless own record or barber), then the
crud update. The route catches nothing, so an `IntegrityError` raised by the
crud commit surfaces as an opaque 500 with the transaction rolled back. -/
def update_user (hashFn : String → String) (now : Nat) (db : DB) (user_id : Nat)
    (user : UserUpdate) (current_user : UserRec) : Except ApiError UserRec × DB :=
  match Crud.get_user db user_id with
  | none => (.error (.http 404 "User not found" []), db)
  | some _ =>
    if current_user.id != user_id && !current_user.is_barber then
      (.error (.http 403 "Not enough permissions" []), db)
    else
      match Crud.update_user hashFn now db user_id user with
      | .error .integrityError =>
        (.error (.internal "IntegrityError: UNIQUE constraint failed on users"), db)
      | .ok (some r) => (.ok r.1, r.2)
      | .ok none => (.error (.internal "unreachable: existence was checked above"), db)

/-- `delete_user` route (app/routers/user.py lines 115-133) composed with its
`get_barber_user` dependency, which FastAPI runs first: 403 for a
non-barber caller, then the crud delete, 404 when it reports failure. -/
def delete_user (db : DB) (user_id : Nat) (current_user : UserRec) :
    Except ApiError Unit × DB :=
  match Dependencies.get_barber_user current_user with
  | .error e => (.error e, db)
  | .ok _ =>
    let r := Crud.delete_user db user_id
    if !r.1 then (.error (.http 404 "User not found" []), db)
    else (.ok (), r.2)

/-- `login_for_access_token` (app/routers/auth.py lines 22-46): resolve by
email (the OAuth form's `username` field carries the email), verify the
password, and raise one identical 401 on either failure. On success the
handler calls `create_access_token(subject=..., is_barber=..., expires_delta=...)`;
that call binds its keywords against the function's declared parameters, and
an unexpected keyword raises `TypeError`. -/
def login_for_access_token (verifyFn : String → String → Bool) (now : Nat) (db : DB)
    (username password : String) : Except ApiError Token :=
  match Crud.get_user_by_email db username with
  | none => .error (.http 401 "Incorrect email or password" [("WWW-Authenticate", "Bearer")])
  | some user =>
    if !verifyFn password user.hashed_password then
      .error (.http 401 "Incorrect email or password" [("WWW-Authenticate", "Bearer")])
    else if kwargs_accepted create_access_token_params login_call_kwargs then
      .ok { access_token := create_access_token now user.id (some (ACCESS_TOKEN_EXPIRE_MINUTES * 60)),
            token_type := "bearer" }
    else
      .error (.internal "TypeError: create_access_token() got an unexpected keyword argument is_barber")

/-- `login_with_email` (app/routers/auth.py lines 49-70): same flow from a
JSON body; its 401 carries no WWW-Authenticate header; the success path has
the same keyword-bound call to `create_access_token`. -/
def login_with_email (verifyFn : String → String → Bool) (now : Nat) (db : DB)
    (email password : String) : Except ApiError Token :=
  match Crud.get_user_by_email db email with
  | none => .error (.http 401 "Incorrect email or password" [])
  | some user =>
    if !verifyFn password user.hashed_password then
      .error (.http 401 "Incorrect email or password" [])
    else if kwargs_accepted create_access_token_params login_call_kwargs then
      .ok { access_token := create_access_token now user.id (some (ACCESS_TOKEN_EXPIRE_MINUTES * 60)),
            token_type := "bearer" }
    else
      .error (.internal "TypeError: create_access_token() got an unexpected keyword argument is_barber")

end Routers

end UserService

namespace UserService

/-! Concrete fixtures used by closed theorems and witnesses. -/

/-- A sample hasher standing in for passlib bcrypt in concrete runs. -/
def sampleHash : String → String := fun s => String.append "hashed-" s

/-- The verifier matching `sampleHash`: a password verifies against exactly
its own hash. -/
def sampleVerify : String → String → Bool := fun p h => h == String.append "hashed-" p

/-- A stored regular (non-barber) active user. -/
def alice : UserRec :=
  { id := 1, email := "a@x.com", username := "a", first_name := none,
    last_name := none, phone_number := none,
    hashed_password := sampleHash "secret1", is_active := true,
    is_barber := false, created_at := 0, updated_at := none }

/-- A stored barber user. -/
def bruno : UserRec :=
  { id := 2, email := "b@x.com", username := "b", first_name := none,
    last_name := none, phone_number := none,
    hashed_password := sampleHash "secret2", is_active := true,
    is_barber := true, created_at := 0, updated_at := none }

/-- A store holding only `alice`. -/
def dbA : DB := { users := [alice], next_id := 2 }

/-- A store holding `alice` and `bruno`. -/
def dbAB : DB := { users := [alice, bruno], next_id := 3 }

/-- C1: the spec (and the repository's own tests) promise that login with a
stored user's email and correct password succeeds with a bearer token whose
subject is the user's id. In the code, both login handlers call
`create_access_token(subject=..., is_barber=..., expires_delta=...)` while
the function declares only `subject` and `expires_delta`
(app/utils/auth.py lines 27-29), so Python keyword binding fails: every
correct-credential login raises `TypeError` and surfaces as an internal
error instead of returning a token. -/
theorem login_correct_credentials_raises_type_error :
    kwargs_accepted create_access_token_params login_call_kwargs = false
    ∧ Routers.login_for_access_token sampleVerify 0 dbA "a@x.com" "secret1"
        = .error (.internal "TypeError: create_access_token() got an unexpected keyword argument is_barber")
    ∧ Routers.login_with_email sampleVerify 0 dbA "a@x.com" "secret1"
        = .error (.internal "TypeError: create_access_token() got an unexpected keyword argument is_barber") := by
  refine ⟨by decide, by rfl, by rfl⟩

/-- C4: both login operations resolve the user by email (the form's
`username` field carries the email), and for two failing runs of either
operation — one with an unknown email, one with a known email but wrong
password — the returned error outcome is identical: the same 401 with the
same detail and headers. -/
theorem login_failures_indistinguishable (verifyFn : String → String → Bool) (now : Nat)
    (db : DB) (e1 p1 e2 p2 : String) (u2 : UserRec)
    (h1 : Crud.get_user_by_email db e1 = none)
    (h2 : Crud.get_user_by_email db e2 = some u2)
    (h3 : verifyFn p2 u2.hashed_password = false) :
    Routers.login_for_access_token verifyFn now db e1 p1
        = Routers.login_for_access_token verifyFn now db e2 p2
    ∧ Routers.login_for_access_token verifyFn now db e1 p1
        = .error (.http 401 "Incorrect email or password" [("WWW-Authenticate", "Bearer")])
    ∧ Routers.login_with_email verifyFn now db e1 p1
        = Routers.login_with_email verifyFn now db e2 p2
    ∧ Routers.login_with_email verifyFn now db e1 p1
        = .error (.http 401 "Incorrect email or password" []) := by
  unfold Routers.login_for_access_token Routers.login_with_email
  rw [h1, h2]
  simp [h3]

/-- Witness for C4 at a concrete store: the unknown-email run and the
wrong-password run of each login operation produce the same 401. -/
theorem login_failures_indistinguishable_witness :
    Routers.login_for_access_token sampleVerify 0 dbA "z@x.com" "pw"
        = Routers.login_for_access_token sampleVerify 0 dbA "a@x.com" "wrong"
    ∧ Routers.login_for_access_token sampleVerify 0 dbA "z@x.com" "pw"
        = .error (.http 401 "Incorrect email or password" [("WWW-Authenticate", "Bearer")])
    ∧ Routers.login_with_email sampleVerify 0 dbA "z@x.com" "pw"
        = Routers.login_with_email sampleVerify 0 dbA "a@x.com" "wrong"
    ∧ Routers.login_with_email sampleVerify 0 dbA "z@x.com" "pw"
        = .error (.http 401 "Incorrect email or password" []) :=
  login_failures_indistinguishable sampleVerify 0 dbA "z@x.com" "pw" "a@x.com" "wrong" alice
    (by decide) (by decide) (by decide)

end UserService

namespace UserService

/-- C2: registering over a state that already holds the email or the
username fails with a 400 conflict and leaves the store untouched; when both
are absent the registration succeeds and the record gets the store-assigned
id. -/
theorem register_uniqueness (hashFn : String → String) (now : Nat) (db : DB)
    (uc : UserCreate) :
    ((∃ u ∈ db.users, u.email = uc.email ∨ u.username = uc.username) →
      ∃ d, Routers.create_user hashFn now db uc = (.error (.http 400 d []), db))
    ∧ ((∀ u ∈ db.users, u.email ≠ uc.email ∧ u.username ≠ uc.username) →
      ∃ rec, Routers.create_user hashFn now db uc
          = (.ok rec, { users := db.users ++ [rec], next_id := db.next_id + 1 })
        ∧ rec.id = db.next_id) := by
  constructor
  · rintro ⟨u, hmem, hdup⟩
    unfold Routers.create_user
    cases he : Crud.get_user_by_email db uc.email with
    | some w => exact ⟨"Email already registered", rfl⟩
    | none =>
      cases hn : Crud.get_user_by_username db uc.username with
      | some w => exact ⟨"Username already taken", rfl⟩
      | none =>
        exfalso
        simp only [Crud.get_user_by_email] at he
        simp only [Crud.get_user_by_username] at hn
        have he2 := List.find?_eq_none.mp he u hmem
        have hn2 := List.find?_eq_none.mp hn u hmem
        simp only [beq_iff_eq] at he2 hn2
        rcases hdup with h | h
        · exact he2 h
        · exact hn2 h
  · intro hall
    have he : Crud.get_user_by_email db uc.email = none :=
      List.find?_eq_none.mpr (fun u hu => by simpa using (hall u hu).1)
    have hn : Crud.get_user_by_username db uc.username = none :=
      List.find?_eq_none.mpr (fun u hu => by simpa using (hall u hu).2)
    unfold Routers.create_user
    rw [he, hn]
    exact ⟨_, rfl, rfl⟩

/-- A registration payload reusing `alice`'s email under a fresh username. -/
def ucDupEmail : UserCreate := { email := "a@x.com", username := "other", password := "secret9" }

/-- A registration payload reusing `alice`'s username under a fresh email. -/
def ucDupUsername : UserCreate := { email := "new@x.com", username := "a", password := "secret9" }

/-- A registration payload whose email and username are both fresh. -/
def ucFresh : UserCreate := { email := "c@x.com", username := "c", password := "secret3" }

/-- Witness for C2: duplicate email conflicts, duplicate username conflicts,
and a fresh registration succeeds with the assigned id. -/
theorem register_uniqueness_witness :
    (∃ d, Routers.create_user sampleHash 0 dbA ucDupEmail = (.error (.http 400 d []), dbA))
    ∧ (∃ d, Routers.create_user sampleHash 0 dbA ucDupUsername = (.error (.http 400 d []), dbA))
    ∧ (∃ rec, Routers.create_user sampleHash 0 dbA ucFresh
          = (.ok rec, { users := dbA.users ++ [rec], next_id := dbA.next_id + 1 })
        ∧ rec.id = dbA.next_id) :=
  ⟨(register_uniqueness sampleHash 0 dbA ucDupEmail).1 ⟨alice, by decide, Or.inl (by decide)⟩,
   (register_uniqueness sampleHash 0 dbA ucDupUsername).1 ⟨alice, by decide, Or.inr (by decide)⟩,
   (register_uniqueness sampleHash 0 dbA ucFresh).2 (by decide)⟩

/-- C3: for update-by-id, a nonexistent target yields 404 regardless of the
caller; an existing target updated by a caller who is neither the target nor
a barber yields 403; otherwise (own record, or barber) the update proceeds
past both gates: it succeeds whenever the committed email/username values
collide with no other stored row, and when they do collide the outcome is
the store's propagated integrity error (an opaque 500), never the 404/403
errors. -/
theorem update_not_found_then_forbidden (hashFn : String → String) (now : Nat) (db : DB)
    (user_id : Nat) (payload : UserUpdate) (current : UserRec) :
    (Crud.get_user db user_id = none →
      Routers.update_user hashFn now db user_id payload current
        = (.error (.http 404 "User not found" []), db))
    ∧ (∀ u, Crud.get_user db user_id = some u → current.id ≠ user_id →
        current.is_barber = false →
        Routers.update_user hashFn now db user_id payload current
          = (.error (.http 403 "Not enough permissions" []), db))
    ∧ (∀ u, Crud.get_user db user_id = some u →
        (current.id = user_id ∨ current.is_barber = true) →
        Crud.unique_violation db user_id payload
            (Crud.committed_row hashFn now payload u) = false →
        ∃ rec db2, Routers.update_user hashFn now db user_id payload current
          = (.ok rec, db2))
    ∧ (∀ u, Crud.get_user db user_id = some u →
        (current.id = user_id ∨ current.is_barber = true) →
        Crud.unique_violation db user_id payload
            (Crud.committed_row hashFn now payload u) = true →
        Routers.update_user hashFn now db user_id payload current
          = (.error (.internal "IntegrityError: UNIQUE constraint failed on users"), db)) := by
  refine ⟨?_, ?_, ?_, ?_⟩
  · intro h
    unfold Routers.update_user
    rw [h]
  · intro u hu hne hb
    unfold Routers.update_user
    rw [hu]
    simp [hne, hb]
  · intro u hu hperm hnv
    have hcond : (current.id != user_id && !current.is_barber) = false := by
      rcases hperm with h | h <;> simp [h]
    have hr : Crud.update_user hashFn now db user_id payload = .ok (some ((Crud.committed_row hashFn now payload u), ({ db with users := (Crud.replaceById db.users user_id (Crud.committed_row hashFn now payload u)) }))) := by
      unfold Crud.update_user
      rw [hu]
      simp [hnv]
    refine ⟨(Crud.committed_row hashFn now payload u), ({ db with users := (Crud.replaceById db.users user_id (Crud.committed_row hashFn now payload u)) }), ?_⟩
    unfold Routers.update_user
    rw [hu, hcond, hr]
    rfl
  · intro u hu hperm hnv
    have hcond : (current.id != user_id && !current.is_barber) = false := by
      rcases hperm with h | h <;> simp [h]
    have hr : Crud.update_user hashFn now db user_id payload = .error .integrityError := by
      unfold Crud.update_user
      rw [hu]
      simp [hnv]
    unfold Routers.update_user
    rw [hu, hcond, hr]
    rfl

/-- Witness for C3: a barber hitting an absent id still gets 404; `alice`
(non-barber) updating `bruno` gets 403; `alice` updating her own name
succeeds; `alice` taking `bruno`'s email hits the store's unique constraint
and the propagated 500. -/
theorem update_not_found_then_forbidden_witness :
    Routers.update_user sampleHash 0 dbAB 99 { first_name := some "X" } bruno
        = (.error (.http 404 "User not found" []), dbAB)
    ∧ Routers.update_user sampleHash 0 dbAB 2 { first_name := some "X" } alice
        = (.error (.http 403 "Not enough permissions" []), dbAB)
    ∧ (∃ rec db2, Routers.update_user sampleHash 0 dbAB 1 { first_name := some "X" } alice
        = (.ok rec, db2))
    ∧ Routers.update_user sampleHash 0 dbAB 1 { email := some "b@x.com" } alice
        = (.error (.internal "IntegrityError: UNIQUE constraint failed on users"), dbAB) :=
  ⟨(update_not_found_then_forbidden sampleHash 0 dbAB 99 { first_name := some "X" } bruno).1
      (by decide),
   (update_not_found_then_forbidden sampleHash 0 dbAB 2 { first_name := some "X" } alice).2.1
      bruno (by decide) (by decide) (by decide),
   (update_not_found_then_forbidden sampleHash 0 dbAB 1 { first_name := some "X" } alice).2.2.1
      alice (by decide) (Or.inl (by decide)) (by decide),
   (update_not_found_then_forbidden sampleHash 0 dbAB 1 { email := some "b@x.com" } alice).2.2.2
      alice (by decide) (Or.inl (by decide)) (by decide)⟩

end UserService

namespace UserService

/-- Replacing the first row carrying a given id by a row that keeps that id
makes lookups by that id return the replacement. -/
theorem find?_replaceById (users : List UserRec) (uid : Nat) (u u2 : UserRec)
    (h : users.find? (fun v => v.id == uid) = some u) (h2 : u2.id = uid) :
    (Crud.replaceById users uid u2).find? (fun v => v.id == uid) = some u2 := by
  induction users with
  | nil => simp at h
  | cons a rest ih =>
    simp only [Crud.replaceById]
    by_cases ha : (a.id == uid) = true
    · rw [if_pos ha]
      exact List.find?_cons_of_pos _ (by simp [h2])
    · rw [if_neg ha, List.find?_cons_of_neg (p := fun (v : UserRec) => v.id == uid) _ ha]
      apply ih
      rwa [List.find?_cons_of_neg (p := fun (v : UserRec) => v.id == uid) _ ha] at h

/-- With pairwise-distinct row ids, erasing the row carrying a given id
leaves no row with that id. -/
theorem find?_eraseP_nodup (l : List UserRec) (uid : Nat)
    (h : (l.map UserRec.id).Nodup) :
    (l.eraseP (fun v => v.id == uid)).find? (fun v => v.id == uid) = none := by
  induction l with
  | nil => simp
  | cons a rest ih =>
    simp only [List.map_cons, List.nodup_cons] at h
    rw [List.eraseP_cons]
    by_cases ha : (a.id == uid) = true
    · rw [ha, cond_true]
      apply List.find?_eq_none.mpr
      intro x hx
      simp only [beq_iff_eq] at ha ⊢
      intro hxid
      have hax : a.id = x.id := by rw [ha, hxid]
      exact h.1 (hax ▸ List.mem_map_of_mem UserRec.id hx)
    · have hb : (a.id == uid) = false := by simpa using ha
      rw [hb, cond_false, List.find?_cons_of_neg (p := fun (v : UserRec) => v.id == uid) _ ha]
      exact ih h.2

/-- C5: the barber flag is caller-controlled at the public interface:
registration persists the payload's `is_barber` exactly as supplied, and an
authenticated non-barber user updating their own record with
`is_barber = true` succeeds and persists the flag — no operation restricts
who may set it. -/
theorem barber_flag_caller_controlled (hashFn : String → String) (now : Nat) (db : DB)
    (uc : UserCreate) (u : UserRec)
    (hu : Crud.get_user db u.id = some u) (hnb : u.is_barber = false) :
    ((Crud.create_user hashFn now db uc).1.is_barber = uc.is_barber)
    ∧ (∃ rec db2,
        Routers.update_user hashFn now db u.id { is_barber := some true } u = (.ok rec, db2)
        ∧ rec.is_barber = true
        ∧ Crud.get_user db2 u.id = some rec) := by
  refine ⟨rfl, ?_⟩
  have hcond : (u.id != u.id && !u.is_barber) = false := by simp
  have hcrud : Crud.update_user hashFn now db u.id { is_barber := some true } = .ok (some (({ Crud.apply_update_data hashFn { is_barber := some true } u with updated_at := some now }), ({ db with users := (Crud.replaceById db.users u.id ({ Crud.apply_update_data hashFn { is_barber := some true } u with updated_at := some now })) }))) := by
    unfold Crud.update_user
    rw [hu]
    rfl
  refine ⟨({ Crud.apply_update_data hashFn { is_barber := some true } u with updated_at := some now }), ({ db with users := (Crud.replaceById db.users u.id ({ Crud.apply_update_data hashFn { is_barber := some true } u with updated_at := some now })) }), ?_, rfl, ?_⟩
  · unfold Routers.update_user
    rw [hu, hcond, hcrud]
    rfl
  · unfold Crud.get_user
    exact find?_replaceById db.users u.id u _ hu rfl

/-- Witness for C5: `alice`, a non-barber, promotes herself via a self-update
with `is_barber = true`, and the flag persists. -/
theorem barber_flag_caller_controlled_witness :
    ((Crud.create_user sampleHash 0 dbA ucFresh).1.is_barber = ucFresh.is_barber)
    ∧ (∃ rec db2,
        Routers.update_user sampleHash 7 dbA 1 { is_barber := some true } alice = (.ok rec, db2)
        ∧ rec.is_barber = true
        ∧ Crud.get_user db2 1 = some rec) :=
  barber_flag_caller_controlled sampleHash 7 dbA ucFresh alice (by decide) (by decide)

/-- C6: delete requires the barber role, with no self-delete exception for
regular users; a barber deleting an existing id succeeds and that id no
longer resolves (given distinct stored ids); a barber deleting an absent id
gets 404. -/
theorem delete_barber_gate (db : DB) (user_id : Nat) (current : UserRec) :
    (current.is_barber = false →
      Routers.delete_user db user_id current
        = (.error (.http 403 "Not enough permissions" []), db))
    ∧ (∀ u, current.is_barber = true → Crud.get_user db user_id = some u →
        (db.users.map UserRec.id).Nodup →
        ∃ db2, Routers.delete_user db user_id current = (.ok (), db2)
          ∧ Crud.get_user db2 user_id = none)
    ∧ (current.is_barber = true → Crud.get_user db user_id = none →
      Routers.delete_user db user_id current
        = (.error (.http 404 "User not found" []), db)) := by
  refine ⟨?_, ?_, ?_⟩
  · intro h
    unfold Routers.delete_user Dependencies.get_barber_user
    rw [h]
    rfl
  · intro u hb hu hnodup
    have hdel : Crud.delete_user db user_id
        = (true, { db with users := db.users.eraseP (fun v => v.id == user_id) }) := by
      unfold Crud.delete_user
      rw [hu]
    refine ⟨({ db with users := db.users.eraseP (fun v => v.id == user_id) }), ?_, ?_⟩
    · unfold Routers.delete_user Dependencies.get_barber_user
      rw [hb, hdel]
      rfl
    · unfold Crud.get_user
      exact find?_eraseP_nodup db.users user_id hnodup
  · intro hb hu
    have hdel : Crud.delete_user db user_id = (false, db) := by
      unfold Crud.delete_user
      rw [hu]
    unfold Routers.delete_user Dependencies.get_barber_user
    rw [hb, hdel]
    rfl

/-- Witness for C6: `alice` (non-barber) cannot delete even herself; `bruno`
(barber) deletes `alice` and her id stops resolving; `bruno` deleting an
absent id gets 404. -/
theorem delete_barber_gate_witness :
    Routers.delete_user dbAB 1 alice = (.error (.http 403 "Not enough permissions" []), dbAB)
    ∧ (∃ db2, Routers.delete_user dbAB 1 bruno = (.ok (), db2)
        ∧ Crud.get_user db2 1 = none)
    ∧ Routers.delete_user dbAB 99 bruno = (.error (.http 404 "User not found" []), dbAB) :=
  ⟨(delete_barber_gate dbAB 1 alice).1 (by decide),
   (delete_barber_gate dbAB 1 bruno).2.1 alice (by decide) (by decide) (by decide),
   (delete_barber_gate dbAB 99 bruno).2.2 (by decide) (by decide)⟩

end UserService

namespace UserService

/-- C7 counterexample: on the stored user `alice`, whose `updated_at` is
unset, an update whose payload sets only `first_name` also changes the
record's `updated_at` field — so "every unset field of the record is left
unchanged" fails for the update timestamp, which the `onupdate` column
default bumps on every effective update. -/
theorem update_frame_counterexample :
    (Routers.update_user sampleHash 5 dbA 1 { first_name := some "X" } alice).1
      = .ok ({ alice with first_name := some "X", updated_at := some 5 })
    ∧ some 5 ≠ alice.updated_at :=
  ⟨by rfl, by decide⟩

/-- Field-level behaviour of the merge in `Crud.update_user`: a field left
unset in the payload is copied from the stored row, and a present
first/last name is written from the payload. -/
theorem apply_update_data_frame (hashFn : String → String) (p : UserUpdate) (u : UserRec) :
    ((p.email = none → (Crud.apply_update_data hashFn p u).email = u.email)
    ∧ (p.username = none → (Crud.apply_update_data hashFn p u).username = u.username)
    ∧ (p.first_name = none → (Crud.apply_update_data hashFn p u).first_name = u.first_name)
    ∧ (p.last_name = none → (Crud.apply_update_data hashFn p u).last_name = u.last_name)
    ∧ (p.phone_number = none → (Crud.apply_update_data hashFn p u).phone_number = u.phone_number)
    ∧ (p.is_active = none → (Crud.apply_update_data hashFn p u).is_active = u.is_active)
    ∧ (p.is_barber = none → (Crud.apply_update_data hashFn p u).is_barber = u.is_barber)
    ∧ (p.password = none → (Crud.apply_update_data hashFn p u).hashed_password = u.hashed_password)
    ∧ (Crud.apply_update_data hashFn p u).id = u.id
    ∧ (Crud.apply_update_data hashFn p u).created_at = u.created_at
    ∧ (∀ v, p.first_name = some v → (Crud.apply_update_data hashFn p u).first_name = some v)
    ∧ (∀ v, p.last_name = some v → (Crud.apply_update_data hashFn p u).last_name = some v)) := by
  refine ⟨?_, ?_, ?_, ?_, ?_, ?_, ?_, ?_, rfl, rfl, ?_, ?_⟩
  · intro h
    simp [Crud.apply_update_data, h]
  · intro h
    simp [Crud.apply_update_data, h]
  · intro h
    simp [Crud.apply_update_data, h]
  · intro h
    simp [Crud.apply_update_data, h]
  · intro h
    simp [Crud.apply_update_data, h]
  · intro h
    simp [Crud.apply_update_data, h]
  · intro h
    simp [Crud.apply_update_data, h]
  · intro h
    simp [Crud.apply_update_data, h]
  · intro v h
    simp [Crud.apply_update_data, h]
  · intro v h
    simp [Crud.apply_update_data, h]

/-- The committed row agrees with the plain field merge on every column
except possibly `updated_at`. -/
theorem committed_row_eq (hashFn : String → String) (now : Nat) (p : UserUpdate) (u : UserRec) :
    Crud.committed_row hashFn now p u
      = ({ Crud.apply_update_data hashFn p u with
            updated_at := (Crud.committed_row hashFn now p u).updated_at }) := by
  unfold Crud.committed_row
  cases hb : Crud.UserUpdate.writesRow p <;> rfl

/-- C7 amended: for every existing user and every partial payload whose new
email/username values collide with no other stored row (otherwise the
store's unique constraint aborts the commit), update modifies only the
fields explicitly present in the payload plus the update timestamp (which
is bumped by the store); every other unset field of the record — id,
creation timestamp, and in particular the email when only first/last name
are supplied — is left exactly as it was. -/
theorem update_frame (hashFn : String → String) (now : Nat) (db : DB) (user_id : Nat)
    (p : UserUpdate) (u : UserRec) (hu : Crud.get_user db user_id = some u)
    (hnv : Crud.unique_violation db user_id p (Crud.committed_row hashFn now p u) = false) :
    ∃ rec db2, Crud.update_user hashFn now db user_id p = .ok (some (rec, db2))
      ∧ ((p.email = none → rec.email = u.email)
      ∧ (p.username = none → rec.username = u.username)
      ∧ (p.first_name = none → rec.first_name = u.first_name)
      ∧ (p.last_name = none → rec.last_name = u.last_name)
      ∧ (p.phone_number = none → rec.phone_number = u.phone_number)
      ∧ (p.is_active = none → rec.is_active = u.is_active)
      ∧ (p.is_barber = none → rec.is_barber = u.is_barber)
      ∧ (p.password = none → rec.hashed_password = u.hashed_password)
      ∧ rec.id = u.id
      ∧ rec.created_at = u.created_at
      ∧ (∀ v, p.first_name = some v → rec.first_name = some v)
      ∧ (∀ v, p.last_name = some v → rec.last_name = some v)) := by
  refine ⟨Crud.committed_row hashFn now p u, ({ db with users := (Crud.replaceById db.users user_id (Crud.committed_row hashFn now p u)) }), ?_, ?_⟩
  · unfold Crud.update_user
    rw [hu]
    simp [hnv]
  · rw [committed_row_eq hashFn now p u]
    exact apply_update_data_frame hashFn p u

/-- A partial payload carrying only first and last name. -/
def namesOnly : UserUpdate := { first_name := some "F", last_name := some "L" }

/-- Witness for the amended C7: updating only `alice`'s first/last name
leaves her email, username, phone number, password hash, flags, id and
creation timestamp unchanged and writes the supplied names. -/
theorem update_frame_witness :
    ∃ rec db2, Crud.update_user sampleHash 5 dbA 1 namesOnly = .ok (some (rec, db2))
      ∧ ((namesOnly.email = none → rec.email = alice.email)
      ∧ (namesOnly.username = none → rec.username = alice.username)
      ∧ (namesOnly.first_name = none → rec.first_name = alice.first_name)
      ∧ (namesOnly.last_name = none → rec.last_name = alice.last_name)
      ∧ (namesOnly.phone_number = none → rec.phone_number = alice.phone_number)
      ∧ (namesOnly.is_active = none → rec.is_active = alice.is_active)
      ∧ (namesOnly.is_barber = none → rec.is_barber = alice.is_barber)
      ∧ (namesOnly.password = none → rec.hashed_password = alice.hashed_password)
      ∧ rec.id = alice.id
      ∧ rec.created_at = alice.created_at
      ∧ (∀ v, namesOnly.first_name = some v → rec.first_name = some v)
      ∧ (∀ v, namesOnly.last_name = some v → rec.last_name = some v)) :=
  update_frame sampleHash 5 dbA 1 namesOnly alice (by decide) (by decide)

end UserService

namespace UserService

/-- C9: resolving a bearer token: any decode failure, a missing subject
claim, or a subject matching no stored row is rejected with the uniform 401
credentials error; a token that verifies and resolves to an existing but
inactive user is rejected with the distinct 400 InactiveUser outcome. -/
theorem token_resolution_outcomes (db : DB) (t : JWT) (now : Nat) :
    Dependencies.credentials_exception
        = .http 401 "Could not validate credentials" [("WWW-Authenticate", "Bearer")]
    ∧ (∀ e, jwt_decode t SECRET_KEY now = .error e →
        Dependencies.get_current_user db t now = .error Dependencies.credentials_exception)
    ∧ (∀ pl, jwt_decode t SECRET_KEY now = .ok pl → pl.sub = none →
        Dependencies.get_current_user db t now = .error Dependencies.credentials_exception)
    ∧ (∀ pl s, jwt_decode t SECRET_KEY now = .ok pl → pl.sub = some s →
        db.users.find? (fun u => toString u.id == s) = none →
        Dependencies.get_current_user db t now = .error Dependencies.credentials_exception)
    ∧ (∀ pl s u, jwt_decode t SECRET_KEY now = .ok pl → pl.sub = some s →
        db.users.find? (fun u => toString u.id == s) = some u → u.is_active = false →
        Dependencies.get_current_user db t now = .error (.http 400 "Inactive user" [])) := by
  refine ⟨rfl, ?_, ?_, ?_, ?_⟩
  · intro e he
    simp [Dependencies.get_current_user, he]
  · intro pl hok hsub
    simp [Dependencies.get_current_user, hok, hsub]
  · intro pl s hok hsub hf
    simp [Dependencies.get_current_user, hok, hsub, hf]
  · intro pl s u hok hsub hf hia
    simp [Dependencies.get_current_user, hok, hsub, hf, hia]

/-- A stored user whose active flag is false. -/
def ines : UserRec :=
  { id := 7, email := "i@x.com", username := "i", first_name := none,
    last_name := none, phone_number := none, hashed_password := sampleHash "pw",
    is_active := false, is_barber := false, created_at := 0, updated_at := none }

/-- A store holding only the inactive `ines`. -/
def dbInes : DB := { users := [ines], next_id := 8 }

/-- A valid token for `ines`, signed with the configured secret. -/
def tokenInes : JWT := jwt_encode { sub := some "7", exp := 100 } SECRET_KEY

/-- The same payload signed with a different key: verification fails. -/
def tokenForged : JWT := jwt_encode { sub := some "7", exp := 100 } "not_the_secret"

/-- Witness for C9: the valid token of the inactive `ines` yields the 400
InactiveUser outcome, while a forged token yields the 401 credentials
error. -/
theorem token_resolution_outcomes_witness :
    Dependencies.get_current_user dbInes tokenInes 0 = .error (.http 400 "Inactive user" [])
    ∧ Dependencies.get_current_user dbInes tokenForged 0
        = .error Dependencies.credentials_exception :=
  ⟨(token_resolution_outcomes dbInes tokenInes 0).2.2.2.2 ({ sub := some "7", exp := 100 }) "7"
      ines (by rfl) (by rfl) (by decide) (by rfl),
   (token_resolution_outcomes dbInes tokenForged 0).2.1 .invalidSignature (by rfl)⟩

end UserService

namespace UserService

/-- C10: the boundary validation rejects any registration whose password is
shorter than 6 characters or whose email is malformed; for a validated
payload with fresh email and username the route succeeds and the response
schema's fields equal the input fields (with the server-assigned id and the
column defaults) — and the response is invariant under the stored password
hash, having no password field at all. -/
theorem register_validation_and_response (r : RawUserCreate) (db : DB)
    (hashFn : String → String) (now : Nat) :
    (r.password.length < 6 → ∃ e, validate_user_create r = .error e)
    ∧ (emailFormatOk r.email = false → validate_user_create r = .error .invalidEmail)
    ∧ (∀ uc, validate_user_create r = .ok uc →
        Crud.get_user_by_email db uc.email = none →
        Crud.get_user_by_username db uc.username = none →
        ∃ rec db2, Routers.create_user hashFn now db uc = (.ok rec, db2)
          ∧ Schemas.User.ofRec rec
              = ({ email := r.email, username := r.username, first_name := r.first_name,
                   last_name := r.last_name, phone_number := r.phone_number,
                   is_barber := r.is_barber, id := db.next_id, is_active := true,
                   created_at := now, updated_at := none })
          ∧ (∀ h, Schemas.User.ofRec ({ rec with hashed_password := h })
              = Schemas.User.ofRec rec)) := by
  refine ⟨?_, ?_, ?_⟩
  · intro h
    by_cases he : emailFormatOk r.email
    · refine ⟨.passwordTooShort, ?_⟩
      simp [validate_user_create, he, h]
    · refine ⟨.invalidEmail, ?_⟩
      simp [validate_user_create, he]
  · intro he
    simp [validate_user_create, he]
  · intro uc hv hemail husername
    by_cases he : emailFormatOk r.email
    · by_cases hl : r.password.length < 6
      · simp [validate_user_create, he, hl] at hv
      · simp [validate_user_create, he, hl] at hv
        subst hv
        unfold Routers.create_user
        rw [hemail, husername]
        refine ⟨({ id := db.next_id, email := r.email, username := r.username, first_name := r.first_name, last_name := r.last_name, phone_number := r.phone_number, hashed_password := hashFn r.password, is_active := true, is_barber := r.is_barber, created_at := now, updated_at := none }), ({ users := db.users ++ [({ id := db.next_id, email := r.email, username := r.username, first_name := r.first_name, last_name := r.last_name, phone_number := r.phone_number, hashed_password := hashFn r.password, is_active := true, is_barber := r.is_barber, created_at := now, updated_at := none })], next_id := db.next_id + 1 }), rfl, rfl, ?_⟩
        intro h
        rfl
    · simp [validate_user_create, he] at hv

/-- A registration body whose password is shorter than 6 characters. -/
def rawShortPw : RawUserCreate := { email := "d@x.com", username := "d", password := "abc" }

/-- A registration body with a fresh email/username and a valid password. -/
def rawFresh : RawUserCreate := { email := "d@x.com", username := "d", password := "secret4" }

/-- The validated payload corresponding to `rawFresh`. -/
def ucFromRaw : UserCreate := { email := "d@x.com", username := "d", password := "secret4" }

/-- Witness for C10: the short-password body is rejected at the boundary,
and registering the fresh body exposes exactly the input fields with the
assigned id and no trace of the password hash. -/
theorem register_validation_and_response_witness :
    (∃ e, validate_user_create rawShortPw = .error e)
    ∧ (∃ rec db2, Routers.create_user sampleHash 3 dbA ucFromRaw = (.ok rec, db2)
        ∧ Schemas.User.ofRec rec
            = ({ email := "d@x.com", username := "d", first_name := none,
                 last_name := none, phone_number := none, is_barber := false,
                 id := 2, is_active := true, created_at := 3, updated_at := none })
        ∧ (∀ h, Schemas.User.ofRec ({ rec with hashed_password := h })
            = Schemas.User.ofRec rec)) :=
  ⟨(register_validation_and_response rawShortPw dbA sampleHash 3).1 (by decide),
   (register_validation_and_response rawFresh dbA sampleHash 3).2.2 ucFromRaw (by rfl)
      (by decide) (by decide)⟩

end UserService
